import Mathlib

/-!
Shallow embedding of the behavior scripts of the a11y-astro-components
library (`src/Modal.astro`, `src/Accordion.astro`, `src/DarkMode.astro`,
`src/SkipLinks.astro`), together with theorems settling the specification
claims about them.

DOM elements are modelled by the attributes the scripts inspect; element
identity is a numeric uid.  Event handlers become pure state-transition
functions; a handler that would throw a `TypeError` (dereferencing a `null`
query result) is modelled with `Except String` or an explicit `threw` flag,
with the mutations performed before the throw kept, as in JavaScript.
-/

namespace A11y

/-! ## Modal (`src/Modal.astro`) -/

/-- An element inside a dialog, carrying exactly the attributes the modal
script inspects: tag name, `tabindex` attribute (absent = `none`),
presence of the `disabled` attribute, and a uid standing for object
identity.  A list of `Elem` stands for the dialog's descendants in
document order, as returned by `querySelectorAll`. -/
structure Elem where
  tag : String
  tabindex : Option Int
  disabled : Bool
  uid : Nat
deriving DecidableEq, Repr

/-- Whether an element matches the selector
`'a, button, input, textarea, select, details,[tabindex]:not([tabindex="-1"])'`
used by `getKeyboardFocusableElements` (Modal.astro line 77). -/
def matchesFocusableSelector (e : Elem) : Bool :=
  ["a", "button", "input", "textarea", "select", "details"].contains e.tag ||
    (match e.tabindex with
     | some t => decide (t ≠ -1)
     | none => false)

/-- `getKeyboardFocusableElements` (Modal.astro lines 74-80): the
descendants matching the focusable selector, filtered to exclude elements
with the `disabled` attribute.  `querySelectorAll` preserves document
order, as does `List.filter`. -/
def getKeyboardFocusableElements (element : List Elem) : List Elem :=
  (element.filter matchesFocusableSelector).filter (fun el => !el.disabled)

/-- `trapFocus` (Modal.astro lines 100-118).  Given the key event, the
modal's descendants and the uid of `document.activeElement`, returns
whether `preventDefault` was called and the new active element.  The two
`if` statements run sequentially, the second observing any focus change
made by the first, exactly as in the source.  When the focusables list is
empty the source would throw on the non-null assertions; the source
comment guarantees a modal always has at least one `<button>`, and the
fallthrough branch is unreachable for well-formed modals. -/
def trapFocus (key : String) (shiftKey : Bool) (modal : List Elem)
    (activeElement : Option Nat) : Bool × Option Nat :=
  let focusables := getKeyboardFocusableElements modal
  match focusables.head?, focusables.getLast? with
  | some firstFocusable, some lastFocusable =>
    let step1 :=
      if activeElement = some lastFocusable.uid ∧ key = "Tab" ∧ shiftKey = false then
        (true, some firstFocusable.uid)
      else
        (false, activeElement)
    if step1.2 = some firstFocusable.uid ∧ key = "Tab" ∧ shiftKey = true then
      (true, some lastFocusable.uid)
    else
      step1
  | _, _ => (false, activeElement)

/-- A `<dialog class="modal">` element: its `aria-labelledby` attribute
(the trigger's id), whether it is open, the uid of its `<h3>` title, and
its descendants in document order. -/
structure Dialog where
  ariaLabelledby : String
  isOpen : Bool
  titleUid : Nat
  descendants : List Elem
deriving DecidableEq, Repr

/-- The page state the modal script manipulates: the tracked dialogs (the
`modals` NodeList, in document order), the document's id → element-uid
table (for `document.querySelector('#id')`), the active element, the two
`AbortController`s (`none` = never created, `some false` = live,
`some true` = aborted), the index of the dialog whose listeners
`openModal` registered, and the trace of `.focus()` calls. -/
structure ModalPageState where
  dialogs : List Dialog
  docIds : List (String × Nat)
  activeElement : Option Nat
  trapScopeAborted : Option Bool
  escScopeAborted : Option Bool
  boundModal : Option Nat
  focusTrace : List Nat
deriving DecidableEq, Repr

/-- `document.querySelector('#' + id)`: the first element whose id
attribute equals `id`. -/
def querySelectorId (docIds : List (String × Nat)) (id : String) : Option Nat :=
  (docIds.find? (fun p => p.1 == id)).map (fun p => p.2)

/-- `openModal` (Modal.astro lines 133-187): shows the dialog
(`showModal`), focuses its `<h3>` title, creates both `AbortController`s
and registers the document-wide `trapFocus` keydown listener and the
Escape/click listeners on this dialog. -/
def openModal (s : ModalPageState) (i : Nat) : ModalPageState :=
  match s.dialogs.get? i with
  | none => s
  | some modal =>
    { s with
      dialogs := s.dialogs.set i { modal with isOpen := true }
      activeElement := some modal.titleUid
      focusTrace := s.focusTrace ++ [modal.titleUid]
      trapScopeAborted := some false
      escScopeAborted := some false
      boundModal := some i }

/-- The body of the `modals.forEach` loop in `closeModal` (Modal.astro
lines 201-227), iterated over the dialog list: for each dialog, look up
the trigger by the id in `aria-labelledby` (no null check in the source:
a missing trigger is a `TypeError` on `.focus()`), focus it, close the
dialog, and abort both controllers (optional chaining: a controller that
was never created stays absent). -/
def closeModalLoop (docIds : List (String × Nat)) :
    List Dialog → Option Nat → List Nat → Option Bool → Option Bool →
    Except String (List Dialog × Option Nat × List Nat × Option Bool × Option Bool)
  | [], active, trace, trap, esc => .ok ([], active, trace, trap, esc)
  | modal :: rest, active, trace, trap, esc =>
    match querySelectorId docIds modal.ariaLabelledby with
    | none => .error "TypeError: modalTrigger is null"
    | some trig =>
      match closeModalLoop docIds rest (some trig) (trace ++ [trig])
          (trap.map (fun _ => true)) (esc.map (fun _ => true)) with
      | .ok (ds, a, t, tr, es) => .ok ({ modal with isOpen := false } :: ds, a, t, tr, es)
      | .error e => .error e

/-- `closeModal` (Modal.astro lines 197-228): runs the forEach loop over
every tracked dialog. -/
def closeModal (s : ModalPageState) : Except String ModalPageState :=
  match closeModalLoop s.docIds s.dialogs s.activeElement s.focusTrace
      s.trapScopeAborted s.escScopeAborted with
  | .error e => .error e
  | .ok (ds, a, t, tr, es) =>
    .ok { s with
          dialogs := ds
          activeElement := a
          focusTrace := t
          trapScopeAborted := tr
          escScopeAborted := es }

/-- Dispatch of a document-level keydown through the listener registered
by `openModal` (Modal.astro line 165): the listener runs only while its
`AbortController` has not been aborted, and applies `trapFocus` to the
dialog it was bound to. -/
def documentKeydownDispatch (s : ModalPageState) (key : String) (shiftKey : Bool) :
    ModalPageState :=
  if s.trapScopeAborted = some false then
    match s.boundModal with
    | some i =>
      match s.dialogs.get? i with
      | some modal =>
        { s with activeElement := (trapFocus key shiftKey modal.descendants s.activeElement).2 }
      | none => s
    | none => s
  else s

/-- Dispatch of a keydown reaching the open dialog through the Escape
listener registered by `openModal` (Modal.astro lines 171-173): while the
keydown scope is live, Escape invokes `closeModal`; once aborted the
listener is detached and the event has no modal-specific effect. -/
def modalEscapeDispatch (s : ModalPageState) (key : String) :
    Except String ModalPageState :=
  if s.escScopeAborted = some false ∧ key = "Escape" then closeModal s
  else .ok s

/-- The initial-load bind loop `modals.forEach` (Modal.astro lines
238-282): for each dialog, look up the trigger named by
`aria-labelledby`; if absent, throw
`Trigger element not found ...` immediately (ending the loop); otherwise
record the bound trigger uid and continue. -/
def bindModals (docIds : List (String × Nat)) : List Dialog → Except String (List Nat)
  | [] => .ok []
  | modal :: rest =>
    match querySelectorId docIds modal.ariaLabelledby with
    | none => .error ("Trigger element not found. Did you forget to add a trigger element with id: " ++ modal.ariaLabelledby ++ "?")
    | some trig =>
      match bindModals docIds rest with
      | .ok ts => .ok (trig :: ts)
      | .error e => .error e

/-- The `astro:after-swap` re-bind loop (Modal.astro lines 305-383): the
script re-queries all `.modal` dialogs and runs the same per-dialog logic
as the initial bind loop, with the same throw on a missing trigger. -/
def afterSwapBindModals (docIds : List (String × Nat)) :
    List Dialog → Except String (List Nat)
  | [] => .ok []
  | modal :: rest =>
    match querySelectorId docIds modal.ariaLabelledby with
    | none => .error ("Trigger element not found. Did you forget to add a trigger element with id: " ++ modal.ariaLabelledby ++ "?")
    | some trig =>
      match afterSwapBindModals docIds rest with
      | .ok ts => .ok (trig :: ts)
      | .error e => .error e

/-! ## Accordion (`src/Accordion.astro`) -/

/-- The innerHTML written to the toggle indicator by `openAccordionItem`
(Accordion.astro line 90). -/
def minusIconSvg : String := r#"<svg class="header__toggle-indicator" aria-hidden="true" data-prefix="fas" data-icon="minus" class="svg-inline--fa fa-minus fa-w-14" xmlns="http://www.w3.org/2000/svg" viewBox="0 0 448 512"><path fill="currentColor" d="M416 208H32c-17.67 0-32 14.33-32 32v32c0 17.67 14.33 32 32 32h384c17.67 0 32-14.33 32-32v-32c0-17.67-14.33-32-32-32z"/></svg>"#

/-- The innerHTML written to the toggle indicator by `closeAccordionItem`
(Accordion.astro line 129). -/
def plusIconSvg : String := r#"<svg class="header__toggle-indicator" aria-hidden="true" xmlns="http://www.w3.org/2000/svg" viewBox="0 0 448 512"><path fill="currentColor" d="M416 208H272V64c0-17.67-14.33-32-32-32h-32c-17.67 0-32 14.33-32 32v144H32c-17.67 0-32 14.33-32 32v32c0 17.67 14.33 32 32 32h144v144c0 17.67 14.33 32 32 32h32c17.67 0 32-14.33 32-32V304h144c17.67 0 32-14.33 32-32v-32c0-17.67-14.33-32-32-32z"/></svg>"#

/-- One `.accordion__item` as the script sees it.  `hasPanel` records
whether `accordionItem.querySelector('.accordion__panel')` still finds the
panel (false once the panel was removed from the item's subtree);
`hasInner` whether `.panel__inner` is present; `naturalHeight` the
`getBoundingClientRect().height` of `.panel__inner`.  The `.accordion__header`
element is guaranteed by the `AccordionItem` markup. -/
structure AccordionItemState where
  hasPanel : Bool
  hasInner : Bool
  naturalHeight : Nat
  isActive : Bool
  panelHeight : String
  ariaExpanded : Option String
  indicatorIcon : String
deriving DecidableEq, Repr

/-- `getPanelHeight` (Accordion.astro lines 30-33): the bounding height of
`.panel__inner`, or 0 when that element is absent. -/
def getPanelHeight (accordionItem : AccordionItemState) : Nat :=
  if accordionItem.hasInner then accordionItem.naturalHeight else 0

/-- Outcome of an accordion open/close call: the item's state after all
mutations that executed, whether a `TypeError` was thrown (dereferencing
the `null` panel), and whether the header received focus. -/
structure AccordionOpResult where
  state : AccordionItemState
  threw : Bool
  headerFocused : Bool
deriving DecidableEq, Repr

/-- `openAccordionItem` (Accordion.astro lines 40-91).  The first
statement already dereferences the panel (`accordionPanel.style.height`),
so with the panel missing the function throws before mutating anything;
otherwise it sets the panel height, adds `is-active`, sets
`aria-expanded="true"` and swaps in the minus icon. -/
def openAccordionItem (accordionItem : AccordionItemState) : AccordionOpResult :=
  if accordionItem.hasPanel then
    { state := { accordionItem with
        panelHeight := toString (getPanelHeight accordionItem) ++ "px"
        isActive := true
        ariaExpanded := some "true"
        indicatorIcon := minusIconSvg }
      threw := false
      headerFocused := false }
  else
    { state := accordionItem, threw := true, headerFocused := false }

/-- `closeAccordionItem` (Accordion.astro lines 98-135).  The source first
removes `is-active`, then dereferences the panel
(`panel.style.height = 0`): with the panel missing it throws only after
the class removal already happened.  In the successful path it zeroes the
height, focuses the header, sets `aria-expanded="false"` and swaps in the
plus icon; the guard `if (!panel.parentElement) return` is the last
statement of the function, after every mutation. -/
def closeAccordionItem (accordionItem : AccordionItemState) : AccordionOpResult :=
  let afterClassRemove := { accordionItem with isActive := false }
  if accordionItem.hasPanel then
    { state := { afterClassRemove with
        panelHeight := "0px"
        ariaExpanded := some "false"
        indicatorIcon := plusIconSvg }
      threw := false
      headerFocused := true }
  else
    { state := afterClassRemove, threw := true, headerFocused := false }

/-- `isAccordionOpen` (Accordion.astro lines 144-149). -/
def isAccordionOpen (accordionItem : AccordionItemState) : Bool :=
  accordionItem.isActive

/-- `toggleAccordionItem` (Accordion.astro lines 157-172) applied to the
item containing the event target: close if open, open if closed. -/
def toggleAccordionItem (accordionItem : AccordionItemState) : AccordionOpResult :=
  if isAccordionOpen accordionItem then closeAccordionItem accordionItem
  else openAccordionItem accordionItem

/-- `openAccordionItem` applied to item `n` of the accordion list: the
source function receives the one `.accordion__item` node and queries only
inside it, so on the page it replaces item `n` and touches nothing else. -/
def openAccordionItemAt (items : List AccordionItemState) (n : Nat) :
    List AccordionItemState :=
  match items.get? n with
  | none => items
  | some it => items.set n (openAccordionItem it).state

/-- JavaScript `Array.prototype.indexOf`: first index of `x`, or `-1`. -/
def jsIndexOf : List Nat → Nat → Int
  | [], _ => -1
  | a :: rest, x =>
    if a = x then 0
    else
      let r := jsIndexOf rest x
      if r = -1 then -1 else r + 1

/-- The arrow-key keydown listener (Accordion.astro lines 307-387),
assuming the event target sits in the header of `focusedItem` (items are
element uids).  `wrapperItems` are the `.accordion__item`s of the wrapper
enclosing the target (line 337-339), `accordionItems` the document-global
list (line 21).  Returns the item whose `.accordion__header` receives
focus (with `preventDefault`), or `none` when the handler is a no-op. -/
def accordionArrowTarget (accordionItems : List Nat) (wrapperItems : List Nat)
    (focusedItem : Nat) (key : String) : Option Nat :=
  let index : Int := jsIndexOf wrapperItems focusedItem
  if key = "ArrowDown" then
    if index < (accordionItems.length : Int) - 1 then
      accordionItems.get? (index + 1).toNat
    else none
  else if key = "ArrowUp" then
    if index > 0 then accordionItems.get? (index - 1).toNat else none
  else none

/-! ## Dark mode (`src/DarkMode.astro`) -/

/-- The innerHTML written to the toggle by `enableDarkMode`
(DarkMode.astro line 43). -/
def sunIconSvg : String := r#"<svg xmlns="http://www.w3.org/2000/svg" aria-hidden="true" width="32" height="32" viewBox="0 0 24 24"><path fill-rule="evenodd" clip-rule="evenodd" d="M13 3a1 1 0 1 0-2 0v1a1 1 0 1 0 2 0V3zM5.707 4.293a1 1 0 0 0-1.414 1.414l1 1a1 1 0 0 0 1.414-1.414l-1-1zm14 0a1 1 0 0 0-1.414 0l-1 1a1 1 0 0 0 1.414 1.414l1-1a1 1 0 0 0 0-1.414zM12 7a5 5 0 1 0 0 10 5 5 0 0 0 0-10zm-9 4a1 1 0 1 0 0 2h1a1 1 0 1 0 0-2H3zm17 0a1 1 0 1 0 0 2h1a1 1 0 1 0 0-2h-1zM6.707 18.707a1 1 0 1 0-1.414-1.414l-1 1a1 1 0 1 0 1.414 1.414l1-1zm12-1.414a1 1 0 0 0-1.414 1.414l1 1a1 1 0 0 0 1.414-1.414l-1-1zM13 20a1 1 0 1 0-2 0v1a1 1 0 1 0 2 0v-1z" fill="currentColor"/></svg>"#

/-- The innerHTML written to the toggle by `disableDarkMode`
(DarkMode.astro line 67). -/
def moonIconSvg : String := r#"<svg xmlns="http://www.w3.org/2000/svg" aria-hidden="true" width="32" height="32" viewBox="0 0 24 24"><path fill="currentColor" d="M9.353 3C5.849 4.408 3 7.463 3 11.47A9.53 9.53 0 0 0 12.53 21c4.007 0 7.062-2.849 8.47-6.353C8.17 17.065 8.14 8.14 9.353 3z"/></svg>"#

/-- The page state the dark-mode script manipulates: the
`localStorage.darkMode` entry, whether `document.body` has the `darkmode`
class, and the toggle button's innerHTML and `aria-pressed` attribute. -/
structure DarkState where
  storage : Option String
  bodyDark : Bool
  toggleIcon : String
  ariaPressed : String
deriving DecidableEq, Repr

/-- `enableDarkMode` (DarkMode.astro lines 34-50): adds the `darkmode`
body class, swaps the icon, sets `aria-pressed="true"`, and writes
`"enabled"` to storage only when `store` is true. -/
def enableDarkMode (s : DarkState) (store : Bool) : DarkState :=
  { s with
    bodyDark := true
    toggleIcon := sunIconSvg
    ariaPressed := "true"
    storage := if store then some "enabled" else s.storage }

/-- `disableDarkMode` (DarkMode.astro lines 58-78): removes the `darkmode`
body class, restores the icon, sets `aria-pressed="false"`, and writes
`"disabled"` to storage only when `store` is true. -/
def disableDarkMode (s : DarkState) (store : Bool) : DarkState :=
  { s with
    bodyDark := false
    toggleIcon := moonIconSvg
    ariaPressed := "false"
    storage := if store then some "disabled" else s.storage }

/-- `checkPreference` (DarkMode.astro lines 85-97): consult the
`prefers-color-scheme: dark` media query; enable without storing on a dark
OS preference, otherwise disable (propagating `store`). -/
def checkPreference (prefersDarkMode : Bool) (s : DarkState) (store : Bool) : DarkState :=
  if prefersDarkMode then enableDarkMode s false else disableDarkMode s store

/-- The initial resolution at script load (DarkMode.astro lines 103-119):
`darkMode === "enabled"` enables (default `store = true`),
`darkMode === "disabled"` disables (default `store = true`), anything else
falls through to `checkPreference()` with its default `store = false`. -/
def initialLoad (prefersDarkMode : Bool) (s : DarkState) : DarkState :=
  if s.storage = some "enabled" then enableDarkMode s true
  else if s.storage = some "disabled" then disableDarkMode s true
  else checkPreference prefersDarkMode s false

/-! ## Skip links (`src/SkipLinks.astro`) -/

/-- The document state the skip-link handler reads and writes: the
element found for the anchor's `href` id selector (if any), the first
`<h1>` (if any), the active element, the list of elements whose
`tabIndex` the handler set to `-1`, and the console warnings emitted. -/
structure SkipDoc where
  hrefTargetElement : Option Nat
  firstH1 : Option Nat
  activeElement : Option Nat
  tabIndexSet : List Nat
  consoleWarnings : List String
deriving DecidableEq, Repr

/-- The skip-link keydown handler (SkipLinks.astro lines 44-79):
when the event target is inside an `<a>` and the key is Enter, focus the
element matching the anchor's `href` id (setting its `tabIndex` to -1);
failing that, focus the first `<h1>` the same way; failing that, only log
a console warning. -/
def skipLinkKeydown (doc : SkipDoc) (key : String) (targetClosestAnchor : Bool) :
    SkipDoc :=
  if targetClosestAnchor then
    if key ≠ "Enter" then doc
    else
      match doc.hrefTargetElement with
      | some targetElement =>
        { doc with
          tabIndexSet := doc.tabIndexSet ++ [targetElement]
          activeElement := some targetElement }
      | none =>
        match doc.firstH1 with
        | some h1 =>
          { doc with
            tabIndexSet := doc.tabIndexSet ++ [h1]
            activeElement := some h1 }
        | none =>
          { doc with consoleWarnings := doc.consoleWarnings ++
              ["SkipLinks are not set, either missing an h1 or main content id on the page."] }
  else doc

/-- The top-level `this` binding of the `<script type='module'>` in
SkipLinks.astro: module scripts evaluate with `this` being `undefined`,
modelled as `none`; `some attrs` would be a DOM element exposing the
given `dataset` attributes. -/
def moduleTopLevelThis : Option (List (String × String)) := none

/-- Module evaluation of SkipLinks.astro (lines 19-80): line 27 reads
`this.dataset.classname` to build the selector for the skip anchor, and
only afterwards (lines 42-44) is the keydown listener attached when the
anchor was found.  Reading `.dataset` on an undefined `this` throws a
TypeError, aborting module evaluation before any listener is attached;
with an object `this` the lookup proceeds and the listener is attached
when `document.querySelector` finds the anchor.  Returns the event types
attached to the skip anchor. -/
def skipLinksInit (thisVal : Option (List (String × String)))
    (skipLinkFound : Bool) : Except String (List String) :=
  match thisVal with
  | none => .error "TypeError: Cannot read properties of undefined"
  | some _ => if skipLinkFound then .ok ["keydown"] else .ok []

/-- Dispatch of a keydown event on the skip anchor: the handler body
(`skipLinkKeydown`) runs only if module evaluation attached it; if the
module crashed or found no anchor, the event changes nothing. -/
def skipLinksDispatch (init : Except String (List String)) (doc : SkipDoc)
    (key : String) (targetClosestAnchor : Bool) : SkipDoc :=
  match init with
  | .ok listeners =>
    if listeners.contains "keydown" then skipLinkKeydown doc key targetClosestAnchor
    else doc
  | .error _ => doc

/-! ## Document-level event registrations

For the lifecycle claim, the event types for which each widget script
calls `document.addEventListener` at module top level, read off the four
scripts. -/

/-- Modal.astro registers exactly one document-level listener at top
level: `astro:after-swap` (line 305).  (The `keydown` trap listener is
added per `openModal` call, not at bind time.) -/
def modalDocumentEventTypes : List String := ["astro:after-swap"]

/-- DarkMode.astro registers exactly one document-level listener at top
level: `astro:after-swap` (line 144). -/
def darkModeDocumentEventTypes : List String := ["astro:after-swap"]

/-- Accordion.astro registers two document-level listeners at top level:
the Escape handler (line 267) and the arrow-key handler (line 307), both
for `keydown`.  The script contains no `astro:after-swap` registration. -/
def accordionDocumentEventTypes : List String := ["keydown", "keydown"]

/-- SkipLinks.astro registers no document-level listener: its only
listener is a `keydown` listener on the skip anchor element itself
(line 44), and there is no `astro:after-swap` registration. -/
def skipLinksDocumentEventTypes : List String := []

/-! ## Sample states for concrete evaluations -/

/-- A closed accordion item with its panel present. -/
def sampleClosedItem : AccordionItemState :=
  { hasPanel := true, hasInner := true, naturalHeight := 50, isActive := false,
    panelHeight := "0px", ariaExpanded := some "false", indicatorIcon := plusIconSvg }

/-- An open accordion item with its panel present. -/
def sampleOpenItem : AccordionItemState :=
  { hasPanel := true, hasInner := true, naturalHeight := 80, isActive := true,
    panelHeight := "80px", ariaExpanded := some "true", indicatorIcon := minusIconSvg }

/-- An open accordion item whose `.accordion__panel` has been removed
from the document, so `querySelector` no longer finds it. -/
def sampleDetachedItem : AccordionItemState :=
  { hasPanel := false, hasInner := false, naturalHeight := 120, isActive := true,
    panelHeight := "120px", ariaExpanded := some "true", indicatorIcon := minusIconSvg }

/-- A dark-mode page with no stored preference. -/
def sampleUnsetDark : DarkState :=
  { storage := none, bodyDark := false, toggleIcon := moonIconSvg, ariaPressed := "false" }

/-- A dark-mode page with a stored `"disabled"` preference. -/
def sampleStoredDisabledDark : DarkState :=
  { storage := some "disabled", bodyDark := false, toggleIcon := moonIconSvg,
    ariaPressed := "false" }

/-! ## Claim theorems -/

/-- C7: for distinct accordion items `m ≠ n`, `openAccordionItem` on item
`n` leaves item `m`'s whole state (is-active class, aria-expanded, panel
height) unchanged, while item `n` itself becomes active — so multiple
items can be open at once with no accordion-wide mutual exclusion. -/
theorem openAccordionItem_frame (items : List AccordionItemState) (n m : Nat)
    (it : AccordionItemState) (hnm : m ≠ n) (hn : items.get? n = some it)
    (hpanel : it.hasPanel = true) :
    (openAccordionItemAt items n).get? m = items.get? m ∧
    (openAccordionItemAt items n).get? n = some (openAccordionItem it).state ∧
    (openAccordionItem it).state.isActive = true := by
  have hn' : items[n]? = some it := by rw [← List.get?_eq_getElem?]; exact hn
  refine ⟨?_, ?_, ?_⟩
  · unfold openAccordionItemAt
    rw [hn]
    simp [List.get?_eq_getElem?, List.getElem?_set_ne (Ne.symm hnm)]
  · unfold openAccordionItemAt
    rw [hn]
    simp [List.get?_eq_getElem?, List.getElem?_set_self', hn']
  · simp [openAccordionItem, hpanel]

/-- Witness for C7 at a concrete two-item accordion. -/
theorem openAccordionItem_frame_witness :
    (0 : Nat) ≠ 1 ∧
    [sampleOpenItem, sampleClosedItem].get? 1 = some sampleClosedItem ∧
    sampleClosedItem.hasPanel = true ∧
    ((openAccordionItemAt [sampleOpenItem, sampleClosedItem] 1).get? 0 =
        [sampleOpenItem, sampleClosedItem].get? 0 ∧
      (openAccordionItemAt [sampleOpenItem, sampleClosedItem] 1).get? 1 =
        some (openAccordionItem sampleClosedItem).state ∧
      (openAccordionItem sampleClosedItem).state.isActive = true) :=
  ⟨by decide, rfl, rfl,
    openAccordionItem_frame [sampleOpenItem, sampleClosedItem] 1 0 sampleClosedItem
      (by decide) rfl rfl⟩

/-- C4: the claim says `closeAccordionItem` returns without side effects
when the panel has already been removed from the document.  On such an
item the code instead removes the `is-active` class and then throws a
TypeError dereferencing the missing panel: the `!panel.parentElement`
guard is the last statement of the function, after every mutation. -/
theorem closeAccordionItem_detached_panel_mutates :
    (closeAccordionItem sampleDetachedItem).threw = true ∧
    (closeAccordionItem sampleDetachedItem).state.isActive = false ∧
    sampleDetachedItem.isActive = true ∧
    (closeAccordionItem sampleDetachedItem).state ≠ sampleDetachedItem :=
  ⟨rfl, rfl, rfl, by decide⟩

/-- C5: dark-mode initial state resolves stored preference first, then
the OS scheme, then default: with nothing stored and a dark OS
preference the state becomes enabled with nothing written to storage;
with a stored `"disabled"` value the state is disabled whatever the OS
preference says. -/
theorem darkMode_initial_priority (s t : DarkState) (prefersDarkMode : Bool)
    (hs : s.storage = none) (ht : t.storage = some "disabled") :
    (initialLoad true s).bodyDark = true ∧
    (initialLoad true s).ariaPressed = "true" ∧
    (initialLoad true s).storage = none ∧
    (initialLoad prefersDarkMode t).bodyDark = false ∧
    (initialLoad prefersDarkMode t).ariaPressed = "false" := by
  have h1 : initialLoad true s = enableDarkMode s false := by
    unfold initialLoad
    rw [hs, if_neg (by decide), if_neg (by decide)]
    rfl
  have h2 : initialLoad prefersDarkMode t = disableDarkMode t true := by
    unfold initialLoad
    rw [ht, if_neg (by decide), if_pos rfl]
  rw [h1, h2]
  simp [enableDarkMode, disableDarkMode, hs]

/-- Witness for C5 at concrete dark-mode states. -/
theorem darkMode_initial_priority_witness :
    sampleUnsetDark.storage = none ∧
    sampleStoredDisabledDark.storage = some "disabled" ∧
    ((initialLoad true sampleUnsetDark).bodyDark = true ∧
      (initialLoad true sampleUnsetDark).ariaPressed = "true" ∧
      (initialLoad true sampleUnsetDark).storage = none ∧
      (initialLoad true sampleStoredDisabledDark).bodyDark = false ∧
      (initialLoad true sampleStoredDisabledDark).ariaPressed = "false") :=
  ⟨rfl, rfl, darkMode_initial_priority sampleUnsetDark sampleStoredDisabledDark true rfl rfl⟩

/-- A page where the skip-link target id resolves (to element 4). -/
def sampleSkipDocTarget : SkipDoc :=
  { hrefTargetElement := some 4, firstH1 := some 9, activeElement := some 1,
    tabIndexSet := [], consoleWarnings := [] }

/-- A page with no skip-link target but a first `<h1>` (element 9). -/
def sampleSkipDocH1 : SkipDoc :=
  { hrefTargetElement := none, firstH1 := some 9, activeElement := some 1,
    tabIndexSet := [], consoleWarnings := [] }

/-- A page with neither a skip-link target nor an `<h1>`. -/
def sampleSkipDocBare : SkipDoc :=
  { hrefTargetElement := none, firstH1 := none, activeElement := some 1,
    tabIndexSet := [], consoleWarnings := [] }

/-- C8: the claim describes the skip-link Enter fallback chain, but the
script never runs it.  In the `<script type='module'>` top-level `this`
is `undefined`, so line 27 (`this.dataset.classname`) throws a TypeError
at every page load, before the keydown listener of line 44 is attached.
An Enter keydown on the skip anchor therefore changes nothing: with the
href target present (element 4) focus does not move to it; with only an
`<h1>` focus does not move to the heading; with neither present no
diagnostic is emitted. -/
theorem skipLink_init_crash_no_focus :
    skipLinksInit moduleTopLevelThis true =
      .error "TypeError: Cannot read properties of undefined" ∧
    sampleSkipDocTarget.hrefTargetElement = some 4 ∧
    skipLinksDispatch (skipLinksInit moduleTopLevelThis true)
      sampleSkipDocTarget "Enter" true = sampleSkipDocTarget ∧
    skipLinksDispatch (skipLinksInit moduleTopLevelThis true)
      sampleSkipDocH1 "Enter" true = sampleSkipDocH1 ∧
    skipLinksDispatch (skipLinksInit moduleTopLevelThis true)
      sampleSkipDocBare "Enter" true = sampleSkipDocBare :=
  ⟨rfl, rfl, rfl, rfl, rfl⟩

/-- C9 counterexample: the accordion script registers no document-level
`astro:after-swap` listener at all, so it does not re-run its binding
logic on the post-view-swap signal. -/
theorem accordion_no_after_swap_listener :
    "astro:after-swap" ∉ accordionDocumentEventTypes := by decide

/-- C9 (amended): only the modal and dark-mode scripts register an
`astro:after-swap` document listener; the accordion and skip-links
scripts register none and are not re-bound after a view swap. -/
theorem after_swap_rebind_scripts :
    "astro:after-swap" ∈ modalDocumentEventTypes ∧
    "astro:after-swap" ∈ darkModeDocumentEventTypes ∧
    "astro:after-swap" ∉ accordionDocumentEventTypes ∧
    "astro:after-swap" ∉ skipLinksDocumentEventTypes := by decide

/-- The spec's wording of the focusable-descendant set, for the
refinement conjunct of the focus-trap claim: anchors, buttons, inputs,
textareas, selects, details, and elements with a tabindex other than -1,
excluding those with a disabled attribute. -/
def specFocusable (e : Elem) : Bool :=
  (decide (e.tag = "a") || decide (e.tag = "button") || decide (e.tag = "input") ||
   decide (e.tag = "textarea") || decide (e.tag = "select") || decide (e.tag = "details") ||
   (decide (e.tabindex ≠ none) && decide (e.tabindex ≠ some (-1)))) && !e.disabled

/-- The selector-and-filter pipeline of `getKeyboardFocusableElements`
computes exactly the spec's focusable set, preserving document order. -/
theorem getKeyboardFocusable_eq_spec (l : List Elem) :
    getKeyboardFocusableElements l = l.filter specFocusable := by
  unfold getKeyboardFocusableElements
  rw [List.filter_filter]
  apply List.filter_congr
  intro e _
  obtain ⟨tag, tabindex, disabled, uid⟩ := e
  rw [Bool.eq_iff_iff]
  cases tabindex <;> cases disabled <;>
    simp [matchesFocusableSelector, specFocusable, List.contains_cons] <;>
    tauto

/-- C1: `openModal` moves focus to the dialog's title and arms the trap
scope; while the modal is open, Tab (without Shift) on the last focusable
descendant cancels the default and moves focus to the first, Shift+Tab on
the first moves focus to the last; and the focusable descendants are the
anchors, buttons, inputs, textareas, selects, details and
non-minus-one-tabindex elements without the disabled attribute, in
document order. -/
theorem modal_open_focus_and_trap (s : ModalPageState) (i : Nat) (modal : Dialog)
    (firstFocusable lastFocusable : Elem)
    (hm : s.dialogs.get? i = some modal)
    (hf : (getKeyboardFocusableElements modal.descendants).head? = some firstFocusable)
    (hl : (getKeyboardFocusableElements modal.descendants).getLast? = some lastFocusable) :
    (openModal s i).activeElement = some modal.titleUid ∧
    (openModal s i).trapScopeAborted = some false ∧
    trapFocus "Tab" false modal.descendants (some lastFocusable.uid) =
      (true, some firstFocusable.uid) ∧
    trapFocus "Tab" true modal.descendants (some firstFocusable.uid) =
      (true, some lastFocusable.uid) ∧
    getKeyboardFocusableElements modal.descendants =
      modal.descendants.filter specFocusable := by
  refine ⟨?_, ?_, ?_, ?_, getKeyboardFocusable_eq_spec _⟩
  · unfold openModal
    rw [hm]
  · unfold openModal
    rw [hm]
  · unfold trapFocus
    simp [hf, hl]
  · unfold trapFocus
    simp [hf, hl]

/-- The title element of the sample dialog (`<h3 tabindex="-1">`). -/
def sampleTitleElem : Elem := { tag := "h3", tabindex := some (-1), disabled := false, uid := 5 }

/-- The close button of the sample dialog. -/
def sampleButtonElem : Elem := { tag := "button", tabindex := none, disabled := false, uid := 7 }

/-- A link inside the sample dialog. -/
def sampleAnchorElem : Elem := { tag := "a", tabindex := none, disabled := false, uid := 8 }

/-- A dialog with a title, a link and the close button. -/
def sampleDialog : Dialog :=
  { ariaLabelledby := "trigger-1", isOpen := false, titleUid := 5,
    descendants := [sampleTitleElem, sampleButtonElem, sampleAnchorElem] }

/-- A page holding the sample dialog and its trigger (uid 2). -/
def sampleModalPage : ModalPageState :=
  { dialogs := [sampleDialog], docIds := [("trigger-1", 2)], activeElement := some 2,
    trapScopeAborted := none, escScopeAborted := none, boundModal := none,
    focusTrace := [] }

/-- Witness for C1 at the sample page. -/
theorem modal_open_focus_and_trap_witness :
    sampleModalPage.dialogs.get? 0 = some sampleDialog ∧
    (getKeyboardFocusableElements sampleDialog.descendants).head? = some sampleButtonElem ∧
    (getKeyboardFocusableElements sampleDialog.descendants).getLast? = some sampleAnchorElem ∧
    ((openModal sampleModalPage 0).activeElement = some sampleDialog.titleUid ∧
      (openModal sampleModalPage 0).trapScopeAborted = some false ∧
      trapFocus "Tab" false sampleDialog.descendants (some sampleAnchorElem.uid) =
        (true, some sampleButtonElem.uid) ∧
      trapFocus "Tab" true sampleDialog.descendants (some sampleButtonElem.uid) =
        (true, some sampleAnchorElem.uid) ∧
      getKeyboardFocusableElements sampleDialog.descendants =
        sampleDialog.descendants.filter specFocusable) :=
  ⟨rfl, rfl, rfl,
    modal_open_focus_and_trap sampleModalPage 0 sampleDialog sampleButtonElem
      sampleAnchorElem rfl rfl rfl⟩

/-- C3: at bind time — at initial load and in the post-view-swap handler
alike — a dialog whose `aria-labelledby` id matches no element in the
document makes the bind loop throw its configuration error immediately
instead of continuing without the trigger binding. -/
theorem bind_missing_trigger_throws (dialogs : List Dialog) (docIds : List (String × Nat))
    (d : Dialog) (hd : d ∈ dialogs)
    (hmiss : querySelectorId docIds d.ariaLabelledby = none) :
    (∃ e, bindModals docIds dialogs = .error e) ∧
    (∃ e, afterSwapBindModals docIds dialogs = .error e) := by
  constructor
  · induction dialogs with
    | nil => cases hd
    | cons a rest ih =>
      rcases List.mem_cons.mp hd with rfl | hmem
      · have herr : bindModals docIds (d :: rest) =
            .error ("Trigger element not found. Did you forget to add a trigger element with id: " ++ d.ariaLabelledby ++ "?") := by
          unfold bindModals
          rw [hmiss]
        exact ⟨_, herr⟩
      · unfold bindModals
        cases hq : querySelectorId docIds a.ariaLabelledby with
        | none => exact ⟨_, rfl⟩
        | some trig =>
          obtain ⟨e, he⟩ := ih hmem
          rw [he]
          exact ⟨e, rfl⟩
  · induction dialogs with
    | nil => cases hd
    | cons a rest ih =>
      rcases List.mem_cons.mp hd with rfl | hmem
      · have herr : afterSwapBindModals docIds (d :: rest) =
            .error ("Trigger element not found. Did you forget to add a trigger element with id: " ++ d.ariaLabelledby ++ "?") := by
          unfold afterSwapBindModals
          rw [hmiss]
        exact ⟨_, herr⟩
      · unfold afterSwapBindModals
        cases hq : querySelectorId docIds a.ariaLabelledby with
        | none => exact ⟨_, rfl⟩
        | some trig =>
          obtain ⟨e, he⟩ := ih hmem
          rw [he]
          exact ⟨e, rfl⟩

/-- Witness for C3: the sample dialog on a page with no ids at all. -/
theorem bind_missing_trigger_throws_witness :
    sampleDialog ∈ [sampleDialog] ∧
    querySelectorId [] sampleDialog.ariaLabelledby = none ∧
    ((∃ e, bindModals [] [sampleDialog] = .error e) ∧
      (∃ e, afterSwapBindModals [] [sampleDialog] = .error e)) :=
  ⟨List.mem_cons_self sampleDialog [], rfl,
    bind_missing_trigger_throws [sampleDialog] [] sampleDialog
      (List.mem_cons_self sampleDialog []) rfl⟩

/-- `Array.prototype.indexOf` finds the position of the item actually at
position `i`, provided the items are pairwise distinct DOM nodes. -/
theorem jsIndexOf_eq_of_get? (items : List Nat) :
    ∀ (i x : Nat), items.Nodup → items.get? i = some x → jsIndexOf items x = (i : Int) := by
  induction items with
  | nil => intro i x _ hx; cases hx
  | cons a rest ih =>
    intro i x hnd hx
    cases i with
    | zero =>
      have hax : a = x := by simpa using hx
      subst hax
      simp [jsIndexOf]
    | succ n =>
      have hx' : rest.get? n = some x := by simpa using hx
      have hna : a ∉ rest := (List.nodup_cons.mp hnd).1
      have hax : ¬ a = x := by
        intro h
        exact hna (h ▸ List.get?_mem hx')
      have hrec := ih n x (List.nodup_cons.mp hnd).2 hx'
      unfold jsIndexOf
      rw [if_neg hax, hrec, if_neg (by omega)]
      omega

/-- Evaluation of the arrow handler on ArrowDown. -/
theorem accordionArrowTarget_down (accordionItems wrapperItems : List Nat) (x : Nat) :
    accordionArrowTarget accordionItems wrapperItems x "ArrowDown" =
      (if jsIndexOf wrapperItems x < (accordionItems.length : Int) - 1 then
        accordionItems.get? (jsIndexOf wrapperItems x + 1).toNat
      else none) := rfl

/-- Evaluation of the arrow handler on ArrowUp. -/
theorem accordionArrowTarget_up (accordionItems wrapperItems : List Nat) (x : Nat) :
    accordionArrowTarget accordionItems wrapperItems x "ArrowUp" =
      (if jsIndexOf wrapperItems x > 0 then
        accordionItems.get? (jsIndexOf wrapperItems x - 1).toNat
      else none) := rfl

/-- C6: in an accordion whose items are `items` (pairwise-distinct nodes)
with focus on the header of the item at position `i`, ArrowDown moves
focus to the next item's header when one exists and is a no-op on the
last item; ArrowUp moves to the previous header when one exists and is a
no-op on the first — no wraparound past either end. -/
theorem accordion_arrow_navigation (items : List Nat) (i x : Nat)
    (hnd : items.Nodup) (hx : items.get? i = some x) :
    (i + 1 < items.length →
      accordionArrowTarget items items x "ArrowDown" = items.get? (i + 1)) ∧
    (i + 1 = items.length →
      accordionArrowTarget items items x "ArrowDown" = none) ∧
    (0 < i → accordionArrowTarget items items x "ArrowUp" = items.get? (i - 1)) ∧
    (i = 0 → accordionArrowTarget items items x "ArrowUp" = none) := by
  have hidx : jsIndexOf items x = (i : Int) := jsIndexOf_eq_of_get? items i x hnd hx
  refine ⟨?_, ?_, ?_, ?_⟩
  · intro h
    have ht : ((i : Int) + 1).toNat = i + 1 := by omega
    rw [accordionArrowTarget_down, hidx, if_pos (by omega), ht]
  · intro h
    rw [accordionArrowTarget_down, hidx, if_neg (by omega)]
  · intro h
    have ht : ((i : Int) - 1).toNat = i - 1 := by omega
    rw [accordionArrowTarget_up, hidx, if_pos (by omega), ht]
  · intro h
    rw [accordionArrowTarget_up, hidx, if_neg (by omega)]

/-- Witness for C6 at the three-item accordion `[1, 2, 3]` with focus on
header 2 (position `i = 1`). -/
theorem accordion_arrow_navigation_witness :
    ([1, 2, 3] : List Nat).Nodup ∧
    ([1, 2, 3] : List Nat).get? 1 = some 2 ∧
    ((1 + 1 < ([1, 2, 3] : List Nat).length →
        accordionArrowTarget [1, 2, 3] [1, 2, 3] 2 "ArrowDown" =
          ([1, 2, 3] : List Nat).get? (1 + 1)) ∧
      (1 + 1 = ([1, 2, 3] : List Nat).length →
        accordionArrowTarget [1, 2, 3] [1, 2, 3] 2 "ArrowDown" = none) ∧
      (0 < 1 → accordionArrowTarget [1, 2, 3] [1, 2, 3] 2 "ArrowUp" =
        ([1, 2, 3] : List Nat).get? (1 - 1)) ∧
      (1 = 0 → accordionArrowTarget [1, 2, 3] [1, 2, 3] 2 "ArrowUp" = none)) :=
  ⟨by decide, rfl, accordion_arrow_navigation [1, 2, 3] 1 2 (by decide) rfl⟩

/-- When every tracked dialog's trigger resolves, the `closeModal` loop
succeeds: it closes each dialog in order, focuses each trigger in order
(extending the focus trace), and aborts whichever controllers exist. -/
theorem closeModalLoop_ok (docIds : List (String × Nat)) :
    ∀ (ds : List Dialog) (active : Option Nat) (trace : List Nat) (trap esc : Option Bool),
      (∀ d ∈ ds, (querySelectorId docIds d.ariaLabelledby).isSome = true) →
      closeModalLoop docIds ds active trace trap esc =
        .ok (ds.map (fun d => { d with isOpen := false }),
          (ds.filterMap (fun d => querySelectorId docIds d.ariaLabelledby)).foldl
            (fun _ t => some t) active,
          trace ++ ds.filterMap (fun d => querySelectorId docIds d.ariaLabelledby),
          (if ds.isEmpty then trap else trap.map (fun _ => true)),
          (if ds.isEmpty then esc else esc.map (fun _ => true))) := by
  intro ds
  induction ds with
  | nil =>
    intro active trace trap esc _
    simp [closeModalLoop]
  | cons d rest ih =>
    intro active trace trap esc hres
    have hd := hres d (List.mem_cons_self d rest)
    cases hq : querySelectorId docIds d.ariaLabelledby with
    | none => rw [hq] at hd; cases hd
    | some trig =>
      have hres' : ∀ d' ∈ rest, (querySelectorId docIds d'.ariaLabelledby).isSome = true :=
        fun d' h => hres d' (List.mem_cons_of_mem d h)
      simp only [closeModalLoop, hq]
      rw [ih (some trig) (trace ++ [trig]) (trap.map (fun _ => true))
        (esc.map (fun _ => true)) hres']
      simp only [List.filterMap_cons, List.map_cons, List.foldl_cons, hq,
        List.isEmpty_cons, Bool.false_eq_true, if_false, List.append_assoc,
        List.singleton_append]
      by_cases hre : rest.isEmpty <;>
        cases trap <;> cases esc <;> simp [hre, Option.map_map, Function.comp]

/-- The focus left behind by the `closeModal` loop is the trigger of the
last dialog in document order, whatever dialog was open. -/
theorem closeModal_last_focus (docIds : List (String × Nat)) :
    ∀ (l : List Dialog) (dlast : Dialog),
      l.getLast? = some dlast →
      (∀ x ∈ l, (querySelectorId docIds x.ariaLabelledby).isSome = true) →
      ∀ a : Option Nat,
        (l.filterMap (fun d => querySelectorId docIds d.ariaLabelledby)).foldl
          (fun _ t => some t) a = querySelectorId docIds dlast.ariaLabelledby := by
  intro l
  induction l with
  | nil => intro dlast h; cases h
  | cons b rest ih =>
    intro dlast h hall a
    cases rest with
    | nil =>
      have hb : b = dlast := by simpa using h
      subst hb
      have hib := hall b (List.mem_cons_self b [])
      cases hq : querySelectorId docIds b.ariaLabelledby with
      | none => rw [hq] at hib; cases hib
      | some trig => simp [List.filterMap_cons, hq]
    | cons c rest2 =>
      rw [List.getLast?_cons_cons] at h
      have hall' : ∀ x ∈ c :: rest2, (querySelectorId docIds x.ariaLabelledby).isSome = true :=
        fun x hx => hall x (List.mem_cons_of_mem b hx)
      rw [List.filterMap_cons]
      cases hq : querySelectorId docIds b.ariaLabelledby with
      | none => exact ih dlast h hall' a
      | some trig =>
        rw [List.foldl_cons]
        exact ih dlast h hall' (some trig)

/-- C2: with a modal open, `closeModal` succeeds, closes every tracked
dialog, focuses each dialog's trigger (looked up by the id in its
`aria-labelledby`), and aborts both listener scopes, after which document
Tab keydowns and Escape keydowns dispatch to nothing: the page state is
unchanged by them. -/
theorem closeModal_closes_all_and_releases_scopes (s : ModalPageState) (d0 : Dialog)
    (hd0 : d0 ∈ s.dialogs) (hopen : d0.isOpen = true)
    (hres : ∀ d ∈ s.dialogs, (querySelectorId s.docIds d.ariaLabelledby).isSome = true) :
    ∃ s', closeModal s = .ok s' ∧
      (∀ d ∈ s'.dialogs, d.isOpen = false) ∧
      s'.focusTrace = s.focusTrace ++
        s.dialogs.filterMap (fun d => querySelectorId s.docIds d.ariaLabelledby) ∧
      s'.trapScopeAborted ≠ some false ∧
      s'.escScopeAborted ≠ some false ∧
      (∀ key shiftKey, documentKeydownDispatch s' key shiftKey = s') ∧
      (∀ key, modalEscapeDispatch s' key = .ok s') := by
  obtain ⟨dlgs, docIds, active, trap, esc, bound, trace⟩ := s
  simp only at hd0 hres ⊢
  have hie : dlgs.isEmpty = false := by
    cases hds : dlgs with
    | nil => rw [hds] at hd0; cases hd0
    | cons a l => rfl
  have hloop := closeModalLoop_ok docIds dlgs active trace trap esc hres
  simp only [hie, Bool.false_eq_true, if_false] at hloop
  refine ⟨_, by unfold closeModal; rw [hloop], ?_, rfl, ?_, ?_, ?_, ?_⟩
  · intro d hd
    simp only [List.mem_map] at hd
    obtain ⟨d', _, rfl⟩ := hd
    rfl
  · cases trap <;> simp
  · cases esc <;> simp
  · intro key shiftKey
    unfold documentKeydownDispatch
    rw [if_neg]
    cases trap <;> simp
  · intro key
    unfold modalEscapeDispatch
    rw [if_neg]
    rintro ⟨h1, -⟩
    cases esc <;> simp at h1

/-- A second dialog on the page, after `sampleDialog` in document order. -/
def sampleDialog2 : Dialog :=
  { ariaLabelledby := "trigger-2", isOpen := true, titleUid := 15,
    descendants := [{ tag := "h3", tabindex := some (-1), disabled := false, uid := 15 },
      { tag := "button", tabindex := none, disabled := false, uid := 17 }] }

/-- A page with two dialogs, the second one open, both triggers present
(uids 2 and 3). -/
def sampleTwoModalPage : ModalPageState :=
  { dialogs := [sampleDialog, sampleDialog2],
    docIds := [("trigger-1", 2), ("trigger-2", 3)], activeElement := some 15,
    trapScopeAborted := some false, escScopeAborted := some false, boundModal := some 1,
    focusTrace := [15] }

/-- Witness for C2 at the two-dialog page. -/
theorem closeModal_closes_all_and_releases_scopes_witness :
    sampleDialog2 ∈ sampleTwoModalPage.dialogs ∧
    sampleDialog2.isOpen = true ∧
    (∀ d ∈ sampleTwoModalPage.dialogs,
      (querySelectorId sampleTwoModalPage.docIds d.ariaLabelledby).isSome = true) ∧
    (∃ s', closeModal sampleTwoModalPage = .ok s' ∧
      (∀ d ∈ s'.dialogs, d.isOpen = false) ∧
      s'.focusTrace = sampleTwoModalPage.focusTrace ++
        sampleTwoModalPage.dialogs.filterMap
          (fun d => querySelectorId sampleTwoModalPage.docIds d.ariaLabelledby) ∧
      s'.trapScopeAborted ≠ some false ∧
      s'.escScopeAborted ≠ some false ∧
      (∀ key shiftKey, documentKeydownDispatch s' key shiftKey = s') ∧
      (∀ key, modalEscapeDispatch s' key = .ok s')) :=
  ⟨by decide, rfl, by decide,
    closeModal_closes_all_and_releases_scopes sampleTwoModalPage sampleDialog2
      (by decide) rfl (by decide)⟩

/-- C10: on a document with more than one dialog, `closeModal` visits
every dialog in document order — open or not — focusing each dialog's
trigger and closing each, so once it returns, focus rests on the trigger
of the last dialog in document order, regardless of which dialog was
actually open. -/
theorem closeModal_visits_every_dialog (s : ModalPageState) (dlast : Dialog)
    (hlen : 1 < s.dialogs.length)
    (hlast : s.dialogs.getLast? = some dlast)
    (hres : ∀ d ∈ s.dialogs, (querySelectorId s.docIds d.ariaLabelledby).isSome = true) :
    ∃ s', closeModal s = .ok s' ∧
      s'.dialogs = s.dialogs.map (fun d => { d with isOpen := false }) ∧
      s'.focusTrace = s.focusTrace ++
        s.dialogs.filterMap (fun d => querySelectorId s.docIds d.ariaLabelledby) ∧
      s'.activeElement = querySelectorId s.docIds dlast.ariaLabelledby := by
  have hloop := closeModalLoop_ok s.docIds s.dialogs s.activeElement s.focusTrace
    s.trapScopeAborted s.escScopeAborted hres
  refine ⟨_, by unfold closeModal; rw [hloop], rfl, rfl, ?_⟩
  exact closeModal_last_focus s.docIds s.dialogs dlast hlast hres s.activeElement

/-- Witness for C10 at the two-dialog page: focus ends on the trigger of
the second dialog (uid 3). -/
theorem closeModal_visits_every_dialog_witness :
    1 < sampleTwoModalPage.dialogs.length ∧
    sampleTwoModalPage.dialogs.getLast? = some sampleDialog2 ∧
    (∀ d ∈ sampleTwoModalPage.dialogs,
      (querySelectorId sampleTwoModalPage.docIds d.ariaLabelledby).isSome = true) ∧
    (∃ s', closeModal sampleTwoModalPage = .ok s' ∧
      s'.dialogs = sampleTwoModalPage.dialogs.map (fun d => { d with isOpen := false }) ∧
      s'.focusTrace = sampleTwoModalPage.focusTrace ++
        sampleTwoModalPage.dialogs.filterMap
          (fun d => querySelectorId sampleTwoModalPage.docIds d.ariaLabelledby) ∧
      s'.activeElement = querySelectorId sampleTwoModalPage.docIds
        sampleDialog2.ariaLabelledby) :=
  ⟨by decide, by decide, by decide,
    closeModal_visits_every_dialog sampleTwoModalPage sampleDialog2
      (by decide) (by decide) (by decide)⟩

end A11y
